import Mathlib

/-!
Verification of the self-update subsystem of the os-health-agent repository
(src/updater.py, src/agent.py) against its natural-language specification.

The Python code is shallowly embedded: the file system is a map from file
names to optional byte contents (modeled as strings), Python exceptions are
modeled by explicit Option results or by the success/failure booleans of an
injected-failure environment, and each update attempt is a pure function
from that environment to a result record carrying the outcome flag, the
final live directory contents, the backup snapshot (if one was created) and
the trace of file-system operations the attempt performed, in order.
-/

namespace OsHealthAgent

/-! ## Version parsing and comparison (updater.py, is_newer_version) -/

/-- Parse a run of decimal digits, allowing single underscores between
digits, exactly as Python's int() accepts ("1_0" parses, "1__0" and a
trailing or leading underscore do not). `acc` is the value accumulated so
far. Mirrors the grammar of int() applied by version_tuple. -/
def parseDigitsU : List Char → Nat → Option Nat
  | [], acc => some acc
  | c :: rest, acc =>
    if c.isDigit then parseDigitsU rest (acc * 10 + (c.toNat - 48))
    else if c = '_' then
      match rest with
      | d :: _ => if d.isDigit then parseDigitsU rest acc else none
      | [] => none
    else none

/-- Remove leading and trailing whitespace from a character list; Python's
int() strips surrounding whitespace before parsing. -/
def trimChars (cs : List Char) : List Char :=
  ((cs.dropWhile Char.isWhitespace).reverse.dropWhile Char.isWhitespace).reverse

/-- Python int(s) on a string: optional surrounding whitespace, optional
sign, then a nonempty digit run (underscore-separated). Raises (none) on
anything else. -/
def pyInt (s : String) : Option Int :=
  match trimChars s.toList with
  | [] => none
  | '-' :: rest =>
    match rest with
    | c :: _ => if c.isDigit then (parseDigitsU rest 0).map (fun n => -(n : Int)) else none
    | [] => none
  | '+' :: rest =>
    match rest with
    | c :: _ => if c.isDigit then (parseDigitsU rest 0).map (fun n => (n : Int)) else none
    | [] => none
  | c :: rest =>
    if c.isDigit then (parseDigitsU (c :: rest) 0).map (fun n => (n : Int)) else none

/-- Python s.split('.') for the one-character separator '.': splitting the
empty string yields [""], separators at the ends yield empty pieces. -/
def splitDot : List Char → List (List Char)
  | [] => [[]]
  | c :: rest =>
    if c = '.' then [] :: splitDot rest
    else
      match splitDot rest with
      | g :: gs => (c :: g) :: gs
      | [] => [[c]]

/-- updater.py, version_tuple inside is_newer_version:
tuple(map(int, v.split('.'))). none models the ValueError raised when any
component fails to parse as an int. -/
def version_tuple (v : String) : Option (List Int) :=
  (splitDot v.toList).mapM (fun cs => pyInt (String.mk cs))

/-- Python's < on tuples of ints: lexicographic, with a strict prefix
comparing less than the longer tuple. -/
def pyListLt : List Int → List Int → Bool
  | [], [] => false
  | [], _ :: _ => true
  | _ :: _, [] => false
  | a :: xs, b :: ys => if a < b then true else if a = b then pyListLt xs ys else false

/-- updater.py, AgentUpdater.is_newer_version: compares the parsed integer
tuples with Python tuple >, returning False when either string fails to
parse (the bare except around the comparison). -/
def is_newer_version (latest current : String) : Bool :=
  match version_tuple latest, version_tuple current with
  | some l, some c => pyListLt c l
  | _, _ => false

/-- Python s.lstrip("v"): drop every leading 'v'. Applied to the remote
tag_name in check_for_updates and update_version_file. -/
def pyLstripV (s : String) : String :=
  String.mk (s.toList.dropWhile (fun c => c = 'v'))

/-- updater.py, AgentUpdater.check_for_updates, with the HTTP response
modeled by its status code and the tag_name of the returned release: on a
200 response the stripped tag is compared against the current version with
is_newer_version; any other status, or a comparison failure, yields False.
The surrounding try/except also maps every raised error to False. -/
def check_for_updates (statusCode : Nat) (tag_name current : String) : Bool :=
  if statusCode = 200 then is_newer_version (pyLstripV tag_name) current else false

/-! ## The update attempt (updater.py, perform_update and its callees)

The live installation directory is a finite-support map from file names to
contents; only the files the theorems mention are ever inspected, so a
plain function suffices. An Env packs the pre-attempt state together with
the injectable outcomes of each fallible step, mirroring where the Python
code can raise:
  - backupOk: whether shutil.copytree in create_backup succeeds (its
    exception is caught and create_backup returns None);
  - urlOk: whether get_download_url returns a URL (perform_update returns
    False immediately when it is None, with no rollback);
  - downloadOk, extractOk: whether the download and the zip extraction in
    download_and_extract succeed (its exception handler returns None, and
    install_new_version then raises before touching any live file because
    find_source_directory(None) yields None);
  - sourceDirFound: whether find_source_directory locates agent.py in the
    extracted tree (when not, install_new_version raises before any copy);
  - staged: the contents of the located source directory (a file mapped to
    none is absent from the payload and is skipped with a warning);
  - installFailAfter = some k: the (k+1)-th shutil.copy2 in
    install_new_version raises, after k files were replaced;
  - markerOk: whether the version-file write in update_version_file
    succeeds (its exception is caught and ignored, it never propagates). -/

abbrev FS := String → Option String

/-- updater.py, install_new_version: the fixed list files_to_update. -/
def files_to_update : List String :=
  ["agent.py", "health_report.py", "updater.py", "config.py", "requirements.txt"]

/-- updater.py: self.version_file = self.agent_dir / "version.txt", a file
inside the live installation directory. -/
def version_file : String := "version.txt"

/-- updater.py, create_backup: the backup directory is named
os-health-agent-backup-{current_version}; the name carries no timestamp. -/
def backup_dir_name (v : String) : String := "os-health-agent-backup-" ++ v

structure Env where
  live : FS
  current_version : String
  tag_name : String
  backupOk : Bool
  urlOk : Bool
  downloadOk : Bool
  extractOk : Bool
  sourceDirFound : Bool
  staged : FS
  installFailAfter : Option Nat
  markerOk : Bool

/-- One observable file-system operation of an attempt, in program order.
fileCopy records a shutil.copy2 of a staged file directly over its live
target (the code performs no temporary-path write and no atomic rename;
the tempWrite and atomicRename constructors exist so the specified
discipline can be stated, and are never emitted). -/
inductive FsEvent where
  | backupCreate (dir : String)
  | fileCopy (name : String)
  | tempWrite (name : String)
  | atomicRename (src tgt : String)
  | markerWrite (v : String)
  | restoreFromBackup (dir : String)
  deriving DecidableEq, Repr

structure AttemptResult where
  ok : Bool
  live : FS
  backup : Option FS
  trace : List FsEvent

/-- Point update of a file-system map (the effect of writing one file). -/
def setFile (fs : FS) (n c : String) : FS :=
  fun m => if m = n then some c else fs m

/-- updater.py, install_new_version's copy loop over files_to_update:
walks the list in order, copying each staged file over its live target
(skipping files absent from the payload with only a warning), with an
injected copy2 failure once `done` successful copies have happened.
Returns (completed without raising, live contents after the loop, events
emitted). A raising copy leaves its own target untouched. -/
def install_files (staged : FS) (failAfter : Option Nat) :
    List String → FS → Nat → Bool × FS × List FsEvent
  | [], live, _ => (true, live, [])
  | f :: rest, live, done =>
    match staged f with
    | some c =>
      if failAfter = some done then
        (false, live, [])
      else
        let r := install_files staged failAfter rest (setFile live f c) (done + 1)
        (r.1, r.2.1, FsEvent.fileCopy f :: r.2.2)
    | none => install_files staged failAfter rest live done

/-- updater.py, restore_backup: when a backup directory exists, every item
of the live directory is removed and every item of the backup is copied
back, so the live contents become exactly the snapshot; when backup_dir is
None (create_backup failed) the body is skipped and nothing changes. -/
def restore_backup (backup : Option FS) (live : FS) (v : String) :
    FS × List FsEvent :=
  match backup with
  | some b => (b, [FsEvent.restoreFromBackup (backup_dir_name v)])
  | none => (live, [])

/-- The new version string written by update_version_file:
latest_release_data tag_name with leading v stripped. -/
def new_version (env : Env) : String := pyLstripV env.tag_name

/-- updater.py, perform_update, the try-block after create_backup:
get_download_url (None makes perform_update return False at once, with no
restore); download_and_extract and find_source_directory (a failure in
either makes install_new_version raise before any live copy, which the
except handler answers with restore_backup from the snapshot taken at the
start of the attempt); the copy loop of install_new_version (a raise
mid-loop likewise triggers restore_backup); then update_version_file,
whose own failure is swallowed; finally True is returned. Yields (outcome,
live contents after the attempt, events emitted after the backup step). -/
def attempt_body (env : Env) (backup : Option FS) : Bool × FS × List FsEvent :=
  if env.urlOk then
    if env.downloadOk && env.extractOk && env.sourceDirFound then
      let r := install_files env.staged env.installFailAfter files_to_update env.live 0
      if r.1 then
        let live2 := if env.markerOk then setFile r.2.1 version_file (new_version env)
          else r.2.1
        let mtrace : List FsEvent :=
          if env.markerOk then [FsEvent.markerWrite (new_version env)] else []
        (true, live2, r.2.2 ++ mtrace)
      else
        let rr := restore_backup backup r.2.1 env.current_version
        (false, rr.1, r.2.2 ++ rr.2)
    else
      let rr := restore_backup backup env.live env.current_version
      (false, rr.1, rr.2)
  else
    (false, env.live, [])

/-- updater.py, AgentUpdater.perform_update, step for step: create_backup
first (its failure yields backup None and the attempt continues — the
return value is never tested), then the guarded body above. -/
def perform_update (env : Env) : AttemptResult :=
  let backup : Option FS := if env.backupOk then some env.live else none
  let btrace : List FsEvent :=
    if env.backupOk then [FsEvent.backupCreate (backup_dir_name env.current_version)]
    else []
  let b := attempt_body env backup
  ⟨b.1, b.2.1, backup, btrace ++ b.2.2⟩

/-- agent.py, check_for_updates_loop: restart_agent runs only when
check_for_updates returned True and perform_update returned True. -/
def restart_triggered (updateAvailable : Bool) (r : AttemptResult) : Bool :=
  updateAvailable && r.ok

/-! ## The backup store (updater.py, create_backup) -/

/-- The directory alongside the live installation holding backup
snapshots, keyed by backup directory name. -/
abbrev BackupStore := String → Option FS

/-- updater.py, create_backup: computes the name from the current version
only, removes any existing directory of that name, and copies the whole
agent directory (every file, tracked or not) into it. -/
def create_backup_store (store : BackupStore) (v : String) (live : FS) :
    BackupStore :=
  fun n => if n = backup_dir_name v then some live else store n

example : version_tuple "1.2.3" = some [1, 2, 3] := by decide
example : version_tuple "" = none := by decide
example : version_tuple "1..2" = none := by decide
example : version_tuple "abc" = none := by decide
example : version_tuple "1.-2" = some [1, -2] := by decide
example : is_newer_version "1.10.0" "1.2.0" = true := by decide
example : is_newer_version "1.2.0" "1.10.0" = false := by decide
example : check_for_updates 200 "v1.2.3" "1.0.0" = true := by decide
example : check_for_updates 200 "v1.9.9" "2.0.0" = false := by decide
example : check_for_updates 200 "not-a-version" "1.0.0" = false := by decide

/-- A live directory with distinct pre-attempt contents for each tracked
file and a version marker, used by the concrete scenarios below. -/
def live0 : FS := fun f =>
  if f = "agent.py" then some "old-agent"
  else if f = "health_report.py" then some "old-hr"
  else if f = "updater.py" then some "old-upd"
  else if f = "config.py" then some "old-cfg"
  else if f = "requirements.txt" then some "old-req"
  else if f = "version.txt" then some "1.0.0"
  else none

/-- A staged payload providing new contents for every tracked file. -/
def staged0 : FS := fun f =>
  if f = "agent.py" then some "new-agent"
  else if f = "health_report.py" then some "new-hr"
  else if f = "updater.py" then some "new-upd"
  else if f = "config.py" then some "new-cfg"
  else if f = "requirements.txt" then some "new-req"
  else none

/-- A fully successful attempt environment. -/
def envAllOk : Env :=
  ⟨live0, "1.0.0", "v1.2.3", true, true, true, true, true, staged0, none, true⟩

example : (perform_update envAllOk).ok = true := by decide
example : (perform_update envAllOk).live "agent.py" = some "new-agent" := by decide
example : (perform_update envAllOk).live "version.txt" = some "1.2.3" := by decide
example : (perform_update envAllOk).trace =
    [FsEvent.backupCreate "os-health-agent-backup-1.0.0",
     FsEvent.fileCopy "agent.py", FsEvent.fileCopy "health_report.py",
     FsEvent.fileCopy "updater.py", FsEvent.fileCopy "config.py",
     FsEvent.fileCopy "requirements.txt", FsEvent.markerWrite "1.2.3"] := by decide

/-! ## Trace predicates -/

def isFileCopy : FsEvent → Bool
  | .fileCopy _ => true
  | _ => false

def isTempWrite : FsEvent → Bool
  | .tempWrite _ => true
  | _ => false

def isAtomicRename : FsEvent → Bool
  | .atomicRename _ _ => true
  | _ => false

def isMarkerWrite : FsEvent → Bool
  | .markerWrite _ => true
  | _ => false

/-- True when some tracked-file copy appears after the first version-marker
write of the trace: the violation the commit-point invariant forbids. -/
def fileCopyAfterMarker : List FsEvent → Bool
  | [] => false
  | e :: rest => if isMarkerWrite e then rest.any isFileCopy else fileCopyAfterMarker rest

/-! ## Helper lemmas -/

theorem install_files_not_mem (staged : FS) (fa : Option Nat) :
    ∀ (fs : List String) (live : FS) (d : Nat) (f : String), f ∉ fs →
      (install_files staged fa fs live d).2.1 f = live f := by
  intro fs
  induction fs with
  | nil => intro live d f _; rfl
  | cons g rest ih =>
    intro live d f hf
    have hfg : f ≠ g := fun h => hf (h ▸ List.mem_cons_self g rest)
    have hfr : f ∉ rest := fun h => hf (List.mem_cons_of_mem g h)
    cases hsg : staged g with
    | some c =>
      by_cases hfail : fa = some d
      · simp [install_files, hsg, hfail]
      · simp [install_files, hsg, hfail, ih _ _ _ hfr, setFile, hfg]
    | none => simp [install_files, hsg, ih _ _ _ hfr]

theorem install_files_mem_some (staged : FS) (fa : Option Nat) :
    ∀ (fs : List String) (live : FS) (d : Nat) (f c : String),
      (install_files staged fa fs live d).1 = true → f ∈ fs → staged f = some c →
      (install_files staged fa fs live d).2.1 f = some c := by
  intro fs
  induction fs with
  | nil => intro live d f c _ hf _; cases hf
  | cons g rest ih =>
    intro live d f c hok hf hst
    cases hsg : staged g with
    | some cg =>
      by_cases hfail : fa = some d
      · simp [install_files, hsg, hfail] at hok
      · simp only [install_files, hsg, hfail, if_neg, ite_false] at hok ⊢
        by_cases hfr : f ∈ rest
        · exact ih _ _ _ _ (by simpa using hok) hfr hst
        · have hfg : f = g := by
            rcases List.mem_cons.mp hf with h | h
            · exact h
            · exact absurd h hfr
          subst hfg
          rw [hsg] at hst
          injection hst with hc
          have hres : (install_files staged fa rest (setFile live f cg) (d + 1)).2.1 f
              = setFile live f cg f := install_files_not_mem staged fa rest _ _ f hfr
          rw [hres]
          simp [setFile, hc]
    | none =>
      have hfr : f ∈ rest := by
        rcases List.mem_cons.mp hf with h | h
        · subst h; rw [hsg] at hst; cases hst
        · exact h
      simp only [install_files, hsg] at hok ⊢
      exact ih _ _ _ _ hok hfr hst

theorem install_files_trace_copies (staged : FS) (fa : Option Nat) :
    ∀ (fs : List String) (live : FS) (d : Nat) (e : FsEvent),
      e ∈ (install_files staged fa fs live d).2.2 → isFileCopy e = true := by
  intro fs
  induction fs with
  | nil => intro live d e he; cases he
  | cons g rest ih =>
    intro live d e he
    cases hsg : staged g with
    | some cg =>
      by_cases hfail : fa = some d
      · simp [install_files, hsg, hfail] at he
      · simp only [install_files, hsg, hfail, if_neg, ite_false, List.mem_cons] at he
        rcases he with rfl | he
        · rfl
        · exact ih _ _ _ (by simpa using he)
    | none =>
      simp only [install_files, hsg] at he
      exact ih _ _ _ he

theorem install_files_copy_mem (staged : FS) (fa : Option Nat) :
    ∀ (fs : List String) (live : FS) (d : Nat) (f : String),
      (install_files staged fa fs live d).1 = true → f ∈ fs → (staged f).isSome →
      FsEvent.fileCopy f ∈ (install_files staged fa fs live d).2.2 := by
  intro fs
  induction fs with
  | nil => intro live d f _ hf _; cases hf
  | cons g rest ih =>
    intro live d f hok hf hst
    cases hsg : staged g with
    | some cg =>
      by_cases hfail : fa = some d
      · simp [install_files, hsg, hfail] at hok
      · simp only [install_files, hsg, hfail, if_neg, ite_false, List.mem_cons] at hok ⊢
        by_cases hfg : f = g
        · exact Or.inl (by rw [hfg])
        · have hfr : f ∈ rest := by
            rcases List.mem_cons.mp hf with h | h
            · exact absurd h hfg
            · exact h
          exact Or.inr (ih _ _ _ (by simpa using hok) hfr hst)
    | none =>
      have hfr : f ∈ rest := by
        rcases List.mem_cons.mp hf with h | h
        · subst h; rw [hsg] at hst; cases hst
        · exact h
      simp only [install_files, hsg] at hok ⊢
      exact ih _ _ _ hok hfr hst

theorem fileCopyAfterMarker_append (l m : List FsEvent)
    (hl : ∀ e ∈ l, isMarkerWrite e = false) :
    fileCopyAfterMarker (l ++ m) = fileCopyAfterMarker m := by
  induction l with
  | nil => rfl
  | cons e rest ih =>
    have he : isMarkerWrite e = false := hl e (List.mem_cons_self e rest)
    simp only [List.cons_append, fileCopyAfterMarker, he, Bool.false_eq_true, if_false]
    exact ih (fun x hx => hl x (List.mem_cons_of_mem e hx))

theorem fileCopyAfterMarker_no_marker (l : List FsEvent)
    (hl : ∀ e ∈ l, isMarkerWrite e = false) :
    fileCopyAfterMarker l = false := by
  have := fileCopyAfterMarker_append l [] hl
  simpa using this

/-- The outcome flag of perform_update in closed form: the attempt reports
success exactly when the URL is found, download, extraction and source-dir
location succeed, and the copy loop finishes; neither the backup outcome
nor the version-marker outcome enters into it. -/
theorem perform_update_ok (env : Env) :
    (perform_update env).ok =
      (env.urlOk && (env.downloadOk && env.extractOk && env.sourceDirFound) &&
        (install_files env.staged env.installFailAfter files_to_update env.live 0).1) := by
  rcases env with ⟨l, cv, tn, b, u, d, e, sd, st, fa, m⟩
  simp only [perform_update, attempt_body]
  cases u <;> cases d <;> cases e <;> cases sd <;> simp [restore_backup] <;>
    split <;> simp_all

theorem pyListLt_irrefl : ∀ l, pyListLt l l = false := by
  intro l
  induction l with
  | nil => rfl
  | cons a xs ih => simpa [pyListLt] using ih

theorem pyListLt_trans : ∀ l m n, pyListLt l m = true → pyListLt m n = true →
    pyListLt l n = true := by
  intro l
  induction l with
  | nil =>
    intro m n hlm hmn
    cases m with
    | nil => cases hlm
    | cons b ys =>
      cases n with
      | nil => cases hmn
      | cons c zs => rfl
  | cons a xs ih =>
    intro m n hlm hmn
    cases m with
    | nil => cases hlm
    | cons b ys =>
      cases n with
      | nil => cases hmn
      | cons c zs =>
        simp only [pyListLt] at hlm hmn ⊢
        rcases lt_trichotomy a b with hab | hab | hab
        · rcases lt_trichotomy b c with hbc | hbc | hbc
          · rw [if_pos (by omega)]
          · rw [if_pos (by omega)]
          · rw [if_neg (by omega), if_neg (by omega)] at hmn
            cases hmn
        · subst hab
          rw [if_neg (by omega), if_pos rfl] at hlm
          rcases lt_trichotomy a c with hac | hac | hac
          · rw [if_pos hac]
          · subst hac
            rw [if_neg (by omega), if_pos rfl] at hmn ⊢
            exact ih ys zs hlm hmn
          · rw [if_neg (by omega), if_neg (by omega)] at hmn
            cases hmn
        · rw [if_neg (by omega), if_neg (by omega)] at hlm
          cases hlm

theorem pyListLt_total : ∀ l m, pyListLt l m = true ∨ l = m ∨ pyListLt m l = true := by
  intro l
  induction l with
  | nil =>
    intro m
    cases m with
    | nil => exact Or.inr (Or.inl rfl)
    | cons b ys => exact Or.inl rfl
  | cons a xs ih =>
    intro m
    cases m with
    | nil => exact Or.inr (Or.inr rfl)
    | cons b ys =>
      rcases lt_trichotomy a b with hab | hab | hab
      · left
        simp only [pyListLt]
        rw [if_pos hab]
      · subst hab
        rcases ih ys with h | h | h
        · left
          simpa [pyListLt] using h
        · subst h
          exact Or.inr (Or.inl rfl)
        · right; right
          simpa [pyListLt] using h
      · right; right
        simp only [pyListLt]
        rw [if_pos hab]

theorem perform_update_backup (env : Env) :
    (perform_update env).backup = if env.backupOk then some env.live else none := rfl

theorem perform_update_trace (env : Env) :
    (perform_update env).trace =
      (if env.backupOk then [FsEvent.backupCreate (backup_dir_name env.current_version)]
       else []) ++
      (attempt_body env (if env.backupOk then some env.live else none)).2.2 := rfl

theorem perform_update_live (env : Env) :
    (perform_update env).live =
      (attempt_body env (if env.backupOk then some env.live else none)).2.1 := rfl

theorem copy_not_temp_rename (e : FsEvent) (h : isFileCopy e = true) :
    isTempWrite e = false ∧ isAtomicRename e = false := by
  cases e <;> simp_all [isFileCopy, isTempWrite, isAtomicRename]

theorem copy_not_marker (e : FsEvent) (h : isFileCopy e = true) :
    isMarkerWrite e = false := by
  cases e <;> simp_all [isFileCopy, isMarkerWrite]

theorem restore_backup_trace (bk : Option FS) (live : FS) (v : String) :
    ∀ e ∈ (restore_backup bk live v).2, e = FsEvent.restoreFromBackup (backup_dir_name v) := by
  intro e he
  cases bk <;> simp_all [restore_backup]

/-- No event of the post-backup body is a temporary-path write or an
atomic rename: the code only ever copies directly, writes the marker, or
restores. -/
theorem attempt_body_no_temp_rename (env : Env) (bk : Option FS) :
    ∀ e ∈ (attempt_body env bk).2.2, isTempWrite e = false ∧ isAtomicRename e = false := by
  intro e he
  simp only [attempt_body] at he
  by_cases hu : env.urlOk = true
  swap
  · rw [if_neg hu] at he
    simp at he
  rw [if_pos hu] at he
  by_cases hc : (env.downloadOk && env.extractOk && env.sourceDirFound) = true
  swap
  · rw [if_neg hc] at he
    have := restore_backup_trace bk env.live env.current_version e he
    subst this
    exact ⟨rfl, rfl⟩
  rw [if_pos hc] at he
  by_cases hr :
      (install_files env.staged env.installFailAfter files_to_update env.live 0).1 = true
  · rw [if_pos hr] at he
    rcases List.mem_append.mp he with h | h
    · exact copy_not_temp_rename e (install_files_trace_copies _ _ _ _ _ _ h)
    · by_cases hm : env.markerOk = true
      · rw [if_pos hm] at h
        simp at h
        subst h
        exact ⟨rfl, rfl⟩
      · rw [if_neg hm] at h
        simp at h
  · rw [if_neg hr] at he
    rcases List.mem_append.mp he with h | h
    · exact copy_not_temp_rename e (install_files_trace_copies _ _ _ _ _ _ h)
    · have := restore_backup_trace bk _ env.current_version e h
      subst this
      exact ⟨rfl, rfl⟩

/-- No tracked-file copy of the post-backup body happens after a marker
write: the marker write, when it happens at all, is the final event. -/
theorem attempt_body_no_copy_after_marker (env : Env) (bk : Option FS) :
    fileCopyAfterMarker (attempt_body env bk).2.2 = false := by
  simp only [attempt_body]
  by_cases hu : env.urlOk = true
  swap
  · rw [if_neg hu]
    rfl
  rw [if_pos hu]
  have hnm : ∀ e ∈ (install_files env.staged env.installFailAfter files_to_update
      env.live 0).2.2, isMarkerWrite e = false :=
    fun e he => copy_not_marker e (install_files_trace_copies _ _ _ _ _ _ he)
  by_cases hc : (env.downloadOk && env.extractOk && env.sourceDirFound) = true
  swap
  · rw [if_neg hc]
    apply fileCopyAfterMarker_no_marker
    intro e he
    have := restore_backup_trace bk env.live env.current_version e he
    subst this
    rfl
  rw [if_pos hc]
  by_cases hr :
      (install_files env.staged env.installFailAfter files_to_update env.live 0).1 = true
  · rw [if_pos hr]
    show fileCopyAfterMarker (_ ++ _) = false
    rw [fileCopyAfterMarker_append _ _ hnm]
    by_cases hm : env.markerOk = true
    · rw [if_pos hm]
      rfl
    · rw [if_neg hm]
      rfl
  · rw [if_neg hr]
    show fileCopyAfterMarker (_ ++ _) = false
    rw [fileCopyAfterMarker_append _ _ hnm]
    apply fileCopyAfterMarker_no_marker
    intro e he
    have := restore_backup_trace bk _ env.current_version e he
    subst this
    rfl

/-- On a fully successful path the attempt's trace ends with the version
marker write. -/
theorem perform_update_trace_getLast (env : Env) (hu : env.urlOk = true)
    (hc : (env.downloadOk && env.extractOk && env.sourceDirFound) = true)
    (hr : (install_files env.staged env.installFailAfter files_to_update env.live 0).1 = true)
    (hm : env.markerOk = true) :
    (perform_update env).trace.getLast? = some (FsEvent.markerWrite (new_version env)) := by
  rw [perform_update_trace]
  simp only [attempt_body]
  rw [if_pos hu, if_pos hc, if_pos hr, if_pos hm, if_pos hm]
  show (_ ++ (_ ++ [FsEvent.markerWrite (new_version env)])).getLast? = _
  rw [← List.append_assoc]
  exact List.getLast?_concat _

theorem perform_update_ok_body (env : Env) :
    (perform_update env).ok =
      (attempt_body env (if env.backupOk then some env.live else none)).1 := rfl

theorem perform_update_ok_split (env : Env) (hok : (perform_update env).ok = true) :
    env.urlOk = true ∧
    (env.downloadOk && env.extractOk && env.sourceDirFound) = true ∧
    (install_files env.staged env.installFailAfter files_to_update env.live 0).1 = true := by
  rw [perform_update_ok] at hok
  rcases (Bool.and_eq_true _ _).mp hok with ⟨h1, h3⟩
  rcases (Bool.and_eq_true _ _).mp h1 with ⟨hu, hc⟩
  exact ⟨hu, hc, h3⟩

/-- When no payload directory is reached (missing URL, failed download or
extraction, or source dir not found), the live contents after the body are
the pre-attempt contents, whether or not a backup exists. -/
theorem attempt_body_live_noPayload (env : Env) (bk : Option FS)
    (hc : (env.downloadOk && env.extractOk && env.sourceDirFound) = false)
    (hbk : bk = some env.live ∨ bk = none) :
    (attempt_body env bk).2.1 = env.live := by
  simp only [attempt_body]
  by_cases hu : env.urlOk = true
  swap
  · rw [if_neg hu]
  rw [if_pos hu,
    if_neg (by simp [hc] :
      ¬(env.downloadOk && env.extractOk && env.sourceDirFound) = true)]
  rcases hbk with rfl | rfl <;> rfl

/-- When the body reports failure and the backup holds the pre-attempt
contents, the live contents after the body are the pre-attempt contents:
every failure path either never mutated or was restored from the
snapshot. -/
theorem attempt_body_live_fail (env : Env)
    (hok : (attempt_body env (some env.live)).1 = false) :
    (attempt_body env (some env.live)).2.1 = env.live := by
  simp only [attempt_body] at hok ⊢
  by_cases hu : env.urlOk = true
  swap
  · rw [if_neg hu]
  rw [if_pos hu] at hok ⊢
  by_cases hc : (env.downloadOk && env.extractOk && env.sourceDirFound) = true
  swap
  · rw [if_neg hc]
    rfl
  rw [if_pos hc] at hok ⊢
  by_cases hr :
      (install_files env.staged env.installFailAfter files_to_update env.live 0).1 = true
  · rw [if_pos hr] at hok
    simp at hok
  · rw [if_neg hr]
    rfl

/-- When every stage succeeds and the marker write succeeds, the live
contents after the body are the installed files with the version marker
rewritten on top. -/
theorem attempt_body_live_success (env : Env) (bk : Option FS)
    (hu : env.urlOk = true)
    (hc : (env.downloadOk && env.extractOk && env.sourceDirFound) = true)
    (hr : (install_files env.staged env.installFailAfter files_to_update env.live 0).1 = true)
    (hm : env.markerOk = true) :
    (attempt_body env bk).2.1 =
      setFile (install_files env.staged env.installFailAfter files_to_update env.live 0).2.1
        version_file (new_version env) := by
  simp only [attempt_body]
  rw [if_pos hu, if_pos hc, if_pos hr, if_pos hm]

/-! ## Claims -/

/-- C3: over well-formed dotted-integer version strings (an optional
leading v stripped from the remote tag), the update-availability
comparison is exactly Python's strict ordering of the parsed integer
tuples — a strict total order (irreflexive, transitive, total) compared
element-wise, not string order: "1.10.0" is newer than "1.2.0"; equal
versions give no update; current "1.0.0" against remote tag "v1.2.3"
reports an update and current "2.0.0" against "v1.9.9" does not. -/
theorem c3_version_comparison :
    (∀ a b la lb, version_tuple a = some la → version_tuple b = some lb →
      (is_newer_version a b = true ↔ pyListLt lb la = true)) ∧
    (∀ l, pyListLt l l = false) ∧
    (∀ l m n, pyListLt l m = true → pyListLt m n = true → pyListLt l n = true) ∧
    (∀ l m, pyListLt l m = true ∨ l = m ∨ pyListLt m l = true) ∧
    (∀ a b, version_tuple a = version_tuple b → is_newer_version a b = false) ∧
    is_newer_version "1.10.0" "1.2.0" = true ∧
    check_for_updates 200 "v1.2.3" "1.0.0" = true ∧
    check_for_updates 200 "v1.9.9" "2.0.0" = false := by
  refine ⟨?_, pyListLt_irrefl, pyListLt_trans, pyListLt_total, ?_, by decide, by decide,
    by decide⟩
  · intro a b la lb ha hb
    simp [is_newer_version, ha, hb]
  · intro a b h
    unfold is_newer_version
    rw [← h]
    cases hva : version_tuple a <;> simp [pyListLt_irrefl]

theorem c3_version_comparison_witness :
    (is_newer_version "1.2.3" "1.0.0" = true ↔ pyListLt [1, 0, 0] [1, 2, 3] = true) ∧
    pyListLt [1, 0, 0] [3] = true :=
  ⟨c3_version_comparison.1 "1.2.3" "1.0.0" [1, 2, 3] [1, 0, 0] (by decide) (by decide),
   c3_version_comparison.2.2.1 [1, 0, 0] [2] [3] (by decide) (by decide)⟩

/-- C7: when the remote tag (after stripping the leading v) fails to parse
as a dotted-integer version, the update check reports no update available,
whatever the response status; the except handlers in is_newer_version and
check_for_updates turn the parse failure into the value False, so nothing
escapes the component (the embedding is a total function). -/
theorem c7_parse_failure_no_update (status : Nat) (tag current : String)
    (h : version_tuple (pyLstripV tag) = none) :
    check_for_updates status tag current = false := by
  unfold check_for_updates
  split
  · unfold is_newer_version
    rw [h]
  · rfl

theorem c7_parse_failure_no_update_witness :
    check_for_updates 200 "release-2024" "1.0.0" = false :=
  c7_parse_failure_no_update 200 "release-2024" "1.0.0" (by decide)

/-- C10: the comparison is total over arbitrary strings: whenever either
side fails to parse as dot-separated integers (malformed current version,
non-numeric component, empty string), is_newer_version returns False
rather than raising, so a corrupt local version marker silently disables
updates. -/
theorem c10_malformed_input_false (latest current : String)
    (h : version_tuple latest = none ∨ version_tuple current = none) :
    is_newer_version latest current = false := by
  unfold is_newer_version
  rcases h with h | h
  · rw [h]
  · rw [h]
    cases version_tuple latest <;> rfl

theorem c10_malformed_input_false_witness :
    is_newer_version "1.2.3" "" = false :=
  c10_malformed_input_false "1.2.3" "" (Or.inr (by decide))

/-- C5: if the download succeeds but the archive is corrupt / extraction
fails, the attempt returns Failed, every live file is byte-for-byte its
pre-attempt content, and no restart is triggered by the agent loop. (On
this path download_and_extract returns None, install_new_version raises at
find_source_directory before copying anything, and the except handler's
restore_backup either re-copies the just-taken full snapshot or, when no
backup exists, does nothing.) -/
theorem c5_extract_failure_no_mutation (env : Env) (hd : env.downloadOk = true)
    (he : env.extractOk = false) :
    (perform_update env).ok = false ∧
    (∀ f, (perform_update env).live f = env.live f) ∧
    (∀ b, restart_triggered b (perform_update env) = false) := by
  have hc : (env.downloadOk && env.extractOk && env.sourceDirFound) = false := by
    rw [hd, he]
    simp
  have hok : (perform_update env).ok = false := by
    rw [perform_update_ok, hc]
    simp
  refine ⟨hok, ?_, ?_⟩
  · intro f
    rw [perform_update_live,
      attempt_body_live_noPayload env _ hc (by
        by_cases hb : env.backupOk = true
        · rw [if_pos hb]
          exact Or.inl rfl
        · rw [if_neg hb]
          exact Or.inr rfl)]
  · intro b
    simp [restart_triggered, hok]

/-- An attempt in which the download succeeds but extraction fails. -/
def envC5 : Env :=
  ⟨live0, "1.0.0", "v1.2.3", true, true, true, false, true, staged0, none, true⟩

theorem c5_extract_failure_no_mutation_witness :
    (perform_update envC5).ok = false ∧
    (perform_update envC5).live "agent.py" = envC5.live "agent.py" ∧
    restart_triggered true (perform_update envC5) = false :=
  ⟨(c5_extract_failure_no_mutation envC5 rfl rfl).1,
   (c5_extract_failure_no_mutation envC5 rfl rfl).2.1 "agent.py",
   (c5_extract_failure_no_mutation envC5 rfl rfl).2.2 true⟩

/-- An attempt in which create_backup fails (backup None), every earlier
stage succeeds, and the second shutil.copy2 of install_new_version raises
after one file was already replaced. -/
def envC1 : Env :=
  ⟨live0, "1.0.0", "v1.2.3", false, true, true, true, true, staged0, some 1, true⟩

/-- C1 counterexample: with the backup's creation having failed (which the
code ignores) and the installer failing after replacing 1 of 5 manifest
files, the attempt ends neither Committed nor with the live files equal to
their pre-attempt contents: agent.py already holds the new payload while
health_report.py still holds the old one — a some-but-not-all state
observable after the attempt, contradicting the claimed invariant. -/
theorem c1_counterexample :
    (perform_update envC1).ok = false ∧
    (perform_update envC1).live "agent.py" = some "new-agent" ∧
    (perform_update envC1).live "health_report.py" = some "old-hr" ∧
    envC1.live "agent.py" = some "old-agent" ∧
    envC1.staged "health_report.py" = some "new-hr" := by
  refine ⟨rfl, rfl, rfl, rfl, rfl⟩

/-- C1 (amended): provided create_backup succeeds, every manifest file is
present in the staged payload, and the version-marker write succeeds, each
attempt over the fixed InstallManifest ends either Committed — every
manifest file holding the staged content and the marker holding the new
version — or Failed with every live file bit-for-bit equal to its
pre-attempt (= backup) content; in particular a failure after k of n
replacements is followed by a rollback restoring all n files. Without
those provisos the original claim is false (see the counterexample). -/
theorem c1_all_or_nothing (env : Env) (hb : env.backupOk = true)
    (hs : ∀ f ∈ files_to_update, (env.staged f).isSome)
    (hm : env.markerOk = true) :
    ((perform_update env).ok = true ∧
      (∀ f ∈ files_to_update, (perform_update env).live f = env.staged f) ∧
      (perform_update env).live version_file = some (new_version env)) ∨
    ((perform_update env).ok = false ∧
      ∀ f, (perform_update env).live f = env.live f) := by
  have hbk : (if env.backupOk then some env.live else none) = some env.live := by
    rw [if_pos hb]
  by_cases hok : (perform_update env).ok = true
  · left
    obtain ⟨hu, hc, hr⟩ := perform_update_ok_split env hok
    refine ⟨hok, ?_, ?_⟩
    · intro f hf
      rw [perform_update_live, attempt_body_live_success env _ hu hc hr hm]
      have hnv : f ≠ version_file := by
        intro hfv
        rw [hfv] at hf
        exact (by decide : version_file ∉ files_to_update) hf
      simp only [setFile, if_neg hnv]
      obtain ⟨c, hcf⟩ := Option.isSome_iff_exists.mp (hs f hf)
      rw [install_files_mem_some env.staged env.installFailAfter files_to_update
        env.live 0 f c hr hf hcf, hcf]
    · rw [perform_update_live, attempt_body_live_success env _ hu hc hr hm]
      simp [setFile]
  · right
    have hok' : (perform_update env).ok = false := by
      cases hx : (perform_update env).ok
      · rfl
      · exact absurd hx hok
    refine ⟨hok', fun f => ?_⟩
    have hfail : (attempt_body env (some env.live)).1 = false := by
      rw [← hbk]
      exact hok'
    rw [perform_update_live, hbk, attempt_body_live_fail env hfail]

theorem c1_all_or_nothing_witness :
    (perform_update envAllOk).ok = true ∧
    (perform_update envAllOk).live "agent.py" = envAllOk.staged "agent.py" ∧
    (perform_update envAllOk).live version_file = some (new_version envAllOk) := by
  rcases c1_all_or_nothing envAllOk rfl (by decide) rfl with ⟨h1, h2, h3⟩ | ⟨h1, _⟩
  · exact ⟨h1, h2 "agent.py" (by decide), h3⟩
  · exact absurd h1 (by decide)

/-- An attempt in which create_backup fails and everything else
succeeds. -/
def envC2 : Env :=
  ⟨live0, "1.0.0", "v1.2.3", false, true, true, true, true, staged0, none, true⟩

/-- C2 counterexample: when create_backup fails, perform_update never
tests the returned None — the attempt is not aborted: it proceeds to
overwrite the live tracked files with no snapshot in existence and even
reports success, contradicting "backup failure aborts the attempt before
any live mutation". -/
theorem c2_counterexample :
    envC2.backupOk = false ∧
    (perform_update envC2).backup = none ∧
    (perform_update envC2).ok = true ∧
    (perform_update envC2).live "agent.py" = some "new-agent" ∧
    envC2.live "agent.py" = some "old-agent" := by
  refine ⟨rfl, rfl, rfl, rfl, rfl⟩

/-- C2 (amended): when create_backup succeeds, the snapshot is the
complete pre-attempt live directory and its creation is the first
file-system event of the attempt, before any tracked file is written; but
when backup creation fails the attempt is not aborted — the outcome is
exactly what it would have been with a successful backup, the live
mutation included (the original claim's abort clause is false, see the
counterexample). -/
theorem c2_backup_before_mutation (env : Env) :
    (env.backupOk = true →
      (perform_update env).backup = some env.live ∧
      (perform_update env).trace.head? =
        some (FsEvent.backupCreate (backup_dir_name env.current_version))) ∧
    (perform_update env).ok = (perform_update { env with backupOk := true }).ok := by
  constructor
  · intro hb
    constructor
    · rw [perform_update_backup, if_pos hb]
    · rw [perform_update_trace, if_pos hb]
      rfl
  · rw [perform_update_ok, perform_update_ok]

theorem c2_backup_before_mutation_witness :
    (perform_update envAllOk).backup = some envAllOk.live ∧
    (perform_update envAllOk).trace.head? =
      some (FsEvent.backupCreate (backup_dir_name envAllOk.current_version)) :=
  (c2_backup_before_mutation envAllOk).1 rfl

/-- An attempt in which every stage succeeds except the final version-file
write. -/
def envC4 : Env :=
  ⟨live0, "1.0.0", "v1.2.3", true, true, true, true, true, staged0, none, false⟩

/-- C4 counterexample: update_version_file swallows its own failure, so an
attempt whose marker write fails still returns success: the outcome is
Committed while the version marker still holds the old version and no
marker write appears in the trace — "the attempt counts as Committed
exactly when that marker write succeeds" is false. -/
theorem c4_counterexample :
    (perform_update envC4).ok = true ∧
    (perform_update envC4).live version_file = some "1.0.0" ∧
    new_version envC4 = "1.2.3" ∧
    (perform_update envC4).trace.all (fun e => !(isMarkerWrite e)) = true := by
  refine ⟨rfl, rfl, rfl, rfl⟩

/-- C4 (amended): the version marker write is last — no tracked-file write
ever follows a marker write, and on a successful attempt with a successful
marker write the marker write is the final event of the trace; but the
attempt's outcome does not depend on the marker write succeeding: a failed
marker write still yields a Committed (success) outcome (see the
counterexample). -/
theorem c4_marker_commit_order (env : Env) :
    fileCopyAfterMarker (perform_update env).trace = false ∧
    ((perform_update env).ok = true → env.markerOk = true →
      (perform_update env).trace.getLast? = some (FsEvent.markerWrite (new_version env))) ∧
    (perform_update env).ok = (perform_update { env with markerOk := true }).ok := by
  refine ⟨?_, ?_, ?_⟩
  · rw [perform_update_trace, fileCopyAfterMarker_append]
    · exact attempt_body_no_copy_after_marker env _
    · intro e he
      by_cases hb : env.backupOk = true
      · rw [if_pos hb] at he
        simp at he
        subst he
        rfl
      · rw [if_neg hb] at he
        simp at he
  · intro hok hm
    obtain ⟨hu, hc, hr⟩ := perform_update_ok_split env hok
    exact perform_update_trace_getLast env hu hc hr hm
  · rw [perform_update_ok, perform_update_ok]

theorem c4_marker_commit_order_witness :
    (perform_update envAllOk).trace.getLast? =
      some (FsEvent.markerWrite (new_version envAllOk)) :=
  (c4_marker_commit_order envAllOk).2.1 rfl rfl

/-- A fully successful attempt, for the installer-discipline claim. -/
def envC6 : Env :=
  ⟨live0, "1.0.0", "v1.2.3", true, true, true, true, true, staged0, none, true⟩

/-- C6 counterexample: in a successful run that replaced agent.py, the
trace records a direct shutil.copy2 overwrite of the live target and
contains no temporary-path write and no atomic rename at all — the claimed
temp-file-then-atomic-rename discipline is not what the code does. -/
theorem c6_counterexample :
    FsEvent.fileCopy "agent.py" ∈ (perform_update envC6).trace ∧
    (perform_update envC6).live "agent.py" = some "new-agent" ∧
    (perform_update envC6).trace.all
      (fun e => !(isTempWrite e) && !(isAtomicRename e)) = true := by
  exact ⟨by decide, rfl, rfl⟩

/-- C6 (amended): the Installer replaces each tracked file by copying the
staged content directly over the live target (shutil.copy2); no attempt
ever emits a temporary-path write or an atomic rename, and on a successful
attempt every manifest file present in the payload is overwritten in
place, so a window exists in which a tracked file is partially written. -/
theorem c6_direct_overwrite (env : Env) :
    ((perform_update env).trace.all
      (fun e => !(isTempWrite e) && !(isAtomicRename e)) = true) ∧
    ((perform_update env).ok = true → ∀ f ∈ files_to_update, (env.staged f).isSome →
      FsEvent.fileCopy f ∈ (perform_update env).trace) := by
  constructor
  · rw [perform_update_trace, List.all_append]
    refine (Bool.and_eq_true _ _).mpr ⟨?_, ?_⟩
    · by_cases hb : env.backupOk = true
      · rw [if_pos hb]
        rfl
      · rw [if_neg hb]
        rfl
    · rw [List.all_eq_true]
      intro e he
      obtain ⟨h1, h2⟩ := attempt_body_no_temp_rename env _ e he
      simp [h1, h2]
  · intro hok f hf hsf
    obtain ⟨hu, hc, hr⟩ := perform_update_ok_split env hok
    rw [perform_update_trace]
    apply List.mem_append_right
    have hmem := install_files_copy_mem env.staged env.installFailAfter files_to_update
      env.live 0 f hr hf hsf
    simp only [attempt_body]
    rw [if_pos hu, if_pos hc, if_pos hr]
    show _ ∈ _ ++ _
    exact List.mem_append_left _ hmem

theorem c6_direct_overwrite_witness :
    FsEvent.fileCopy "config.py" ∈ (perform_update envC6).trace :=
  (c6_direct_overwrite envC6).2 rfl "config.py" (by decide) (by decide)

/-- Two different live states at the same source version; the first also
contains notes.txt, a file outside the InstallManifest. -/
def liveSnapA : FS := fun f =>
  if f = "agent.py" then some "A" else if f = "notes.txt" then some "n" else none

def liveSnapB : FS := fun f => if f = "agent.py" then some "B" else none

/-- C8 counterexample: the backup location is named from the source
version alone — no creation time — so a second snapshot taken later at the
same version lands on the same name and replaces the first (create_backup
even rmtree-s the existing directory first): two historical snapshots of
version 1.0.0 cannot coexist. And the snapshot is a copytree of the whole
agent directory, so it contains notes.txt, which is not a tracked file,
refuting "only tracked files". -/
theorem c8_counterexample :
    create_backup_store (create_backup_store (fun _ => none) "1.0.0" liveSnapA)
        "1.0.0" liveSnapB (backup_dir_name "1.0.0") = some liveSnapB ∧
    create_backup_store (fun _ => none) "1.0.0" liveSnapA (backup_dir_name "1.0.0")
      = some liveSnapA ∧
    liveSnapA "agent.py" ≠ liveSnapB "agent.py" ∧
    liveSnapA "notes.txt" = some "n" ∧
    "notes.txt" ∉ files_to_update := by
  refine ⟨rfl, rfl, by decide, rfl, by decide⟩

/-- C8 (amended): each successful backup copies the entire live directory
(tracked and untracked files alike) into the location named
os-health-agent-backup-<sourceVersion>; the name determines the source
version (distinct versions get distinct locations, which are left intact
by a backup of another version), but it encodes no creation time, so a
re-backup at the same version replaces the earlier snapshot rather than
coexisting with it (see the counterexample). -/
theorem c8_backup_full_copy (store : BackupStore) (v : String) (live : FS) :
    create_backup_store store v live (backup_dir_name v) = some live ∧
    (∀ n, n ≠ backup_dir_name v → create_backup_store store v live n = store n) ∧
    (∀ w, backup_dir_name w = backup_dir_name v → w = v) := by
  refine ⟨?_, ?_, ?_⟩
  · simp [create_backup_store]
  · intro n hn
    simp [create_backup_store, hn]
  · intro w h
    have hd := congrArg String.data h
    simp only [backup_dir_name, String.data_append] at hd
    exact String.ext (List.append_cancel_left hd)

theorem c8_backup_full_copy_witness :
    create_backup_store (fun _ => none) "1.0.0" live0 "unrelated" = none ∧
    ("1.2.3" : String) = "1.2.3" :=
  ⟨(c8_backup_full_copy (fun _ => none) "1.0.0" live0).2.1 "unrelated" (by decide),
   (c8_backup_full_copy (fun _ => none) "1.2.3" live0).2.2 "1.2.3" rfl⟩

end OsHealthAgent
